import Mathlib

/-!
Verification of the failure-pattern recognition and iterative remediation
engine of the claude-github-actions-improver repository.

The Python sources are shallowly embedded:
* numeric confidence values and success rates (Python floats holding decimal
  literals) are embedded as exact rationals (`ℚ`);
* the regular-expression engine (`re.finditer` / `re.findall`) is an external
  library and is embedded as an explicit oracle parameter
  `refindall : String → String → List String` mapping a pattern and a text to
  the list of matched spans, in text order;
* subprocess invocations of the `gh` CLI are embedded as an explicit outcome
  value (`SubprocResult`), and Python exceptions as `Except` results;
* wall-clock times (round durations, report timestamps) are embedded as
  opaque string/zero parameters, since no claim depends on them.
-/

namespace GHAJobs

/-- `FailurePattern` dataclass of `gha_jobs_commands.py`.  The best-effort
`file_context` / `line_number` annotation fields are elided: they are filled
by regex heuristics over the surrounding log lines and no verified property
refers to them. -/
structure FailurePattern where
  pattern_name : String
  error_signature : String
  confidence : ℚ
  description : String
  suggested_fix : String
deriving DecidableEq, Repr

/-- One entry of the signature table returned by
`GitHubActionsJobsManager._load_failure_patterns`. -/
structure PatternDef where
  name : String
  regex : String
  confidence : ℚ
  description : String
  fix : String
deriving DecidableEq, Repr

/-- The signature table of `GitHubActionsJobsManager._load_failure_patterns`. -/
def failure_patterns : List PatternDef :=
  [ { name := "npm_package_not_found",
      regex := "npm ERR! code ENOENT",
      confidence := 0.9,
      description := "Missing package.json or wrong working directory",
      fix := "Add working-directory or check package.json location" },
    { name := "python_module_missing",
      regex := "ModuleNotFoundError: No module named [\x27\"]([^\x27\"]+)[\x27\"]",
      confidence := 0.85,
      description := "Missing Python module dependency",
      fix := "Add missing module to requirements.txt or install step" },
    { name := "test_failure_assertion",
      regex := "AssertionError: (.+)",
      confidence := 0.7,
      description := "Test assertion failure",
      fix := "Review test logic and expected vs actual values" },
    { name := "docker_permission_denied",
      regex := "docker: Error response from daemon.*permission denied",
      confidence := 0.85,
      description := "Docker permission or access issue",
      fix := "Check Docker permissions and registry access" },
    { name := "cache_restore_failed",
      regex := "Failed to restore cache entry",
      confidence := 0.6,
      description := "Cache restoration failure",
      fix := "Update cache keys or add restore-keys fallback" } ]

/-- `GitHubActionsJobsManager.analyze_failure_patterns`: every signature of the
table is run over the whole log (`re.finditer`, embedded as the `refindall`
oracle); each match produces one `FailurePattern` carrying that signature's
confidence.  There is no short-circuit: matches of later signatures are
appended after matches of earlier ones. -/
def analyze_failure_patterns (refindall : String → String → List String)
    (log_content : String) : List FailurePattern :=
  failure_patterns.flatMap (fun pd =>
    (refindall pd.regex log_content).map (fun m =>
      { pattern_name := pd.name,
        error_signature := m,
        confidence := pd.confidence,
        description := pd.description,
        suggested_fix := pd.fix }))

/-- Python's in-place `patterns.sort(key=lambda p: p.confidence, reverse=True)`:
a stable sort, descending by confidence. -/
def sortByConfidenceDesc (patterns : List FailurePattern) : List FailurePattern :=
  patterns.mergeSort (fun a b => b.confidence ≤ a.confidence)

/-- `JobsFailedInvestigateCommand._determine_root_cause`.  The `logs` argument
is present in the Python signature but unused in the body.  The `[]` inner
match arm is unreachable: sorting a non-empty list is non-empty. -/
def determine_root_cause (patterns : List FailurePattern) (_logs : String) : String :=
  if patterns.isEmpty then
    "Unable to identify specific root cause from available patterns"
  else
    match sortByConfidenceDesc patterns with
    | [] => "Unable to identify specific root cause from available patterns"
    | [primary] => primary.description
    | primary :: _ :: _ =>
        primary.description ++ " (plus " ++ toString (patterns.length - 1) ++
          " related issues)"

/-- `JobsFailedInvestigateCommand._generate_recommendations`. -/
def generate_recommendations (patterns : List FailurePattern) : List String :=
  let recommendations := patterns.map (fun p => "• " ++ p.suggested_fix)
  if recommendations.isEmpty then
    [ "• Review workflow logs for specific error messages",
      "• Check recent code changes that might have caused the failure",
      "• Verify environment setup and dependencies" ]
  else recommendations

/-- `JobsFailedInvestigateCommand._calculate_overall_confidence`: 0.3 on an
empty pattern list (and on total weight 0), otherwise the squared-weighted
average `Σ confidence_i² / Σ confidence_i` capped at 0.95. -/
def calculate_overall_confidence (patterns : List FailurePattern) : ℚ :=
  if patterns.isEmpty then 0.3
  else
    let total_weight := (patterns.map (fun p => p.confidence)).sum
    if total_weight = 0 then 0.3
    else
      min ((patterns.map (fun p => p.confidence * p.confidence)).sum / total_weight)
        0.95

/-- `InvestigationResult` dataclass, restricted to the fields produced by the
pure analysis pipeline (the source `WorkflowRun` and the `log_excerpt`
window-extraction are elided; no verified property refers to them). -/
structure InvestigationResult where
  patterns : List FailurePattern
  root_cause : String
  fix_recommendations : List String
  confidence : ℚ
deriving Repr

/-- The pure core of `JobsFailedInvestigateCommand._investigate_run`: analyze
the log, filter matched patterns by the caller-supplied confidence threshold,
then derive root cause, recommendations and overall confidence.  Python's
`_determine_root_cause` sorts the filtered list in place, so the stored
`patterns` field and the inputs of the later computations are the sorted
list. -/
def investigate_run (refindall : String → String → List String)
    (logs : String) (confidence_threshold : ℚ) : InvestigationResult :=
  let patterns := analyze_failure_patterns refindall logs
  let high_confidence_patterns :=
    patterns.filter (fun p => confidence_threshold ≤ p.confidence)
  let sorted := sortByConfidenceDesc high_confidence_patterns
  { patterns := sorted,
    root_cause := determine_root_cause high_confidence_patterns logs,
    fix_recommendations := generate_recommendations sorted,
    confidence := calculate_overall_confidence sorted }

end GHAJobs

namespace FailureAnalyzer

/-- One entry of the pattern table of
`GitHubActionsFailureAnalyzer.analyze_failure_patterns` in
`failure-analyzer.py`. -/
structure FAPattern where
  pattern : String
  error_type : String
  message : String
  fixes : List String
  workflow_changes : List String
  code_changes : List String
  confidence : ℚ
deriving DecidableEq, Repr

/-- The pattern table of `GitHubActionsFailureAnalyzer.analyze_failure_patterns`
(`failure-analyzer.py`), in source order. -/
def fa_failure_patterns : List FAPattern :=
  [ { pattern := "npm ERR!.*ENOENT.*package\\.json",
      error_type := "missing_package_json",
      message := "package.json not found",
      fixes := [ "Add package.json file to repository root",
                 "Update workflow to run from correct directory with package.json" ],
      workflow_changes :=
        [ "Add \x27working-directory\x27 parameter to npm steps",
          "Add step to verify package.json exists before npm install" ],
      code_changes := [],
      confidence := 0.9 },
    { pattern := "npm ERR!.*404.*not found",
      error_type := "npm_package_not_found",
      message := "npm package not found",
      fixes := [ "Check package names in package.json for typos",
                 "Verify package exists on npm registry",
                 "Update to correct package version" ],
      workflow_changes := [],
      code_changes := [],
      confidence := 0.8 },
    { pattern := "npm ERR!.*peer dep.*ERESOLVE",
      error_type := "npm_peer_dependency",
      message := "npm peer dependency conflict",
      fixes := [ "Use \x27npm install --legacy-peer-deps\x27 in workflow",
                 "Update package.json to resolve peer dependency conflicts",
                 "Use npm ci with --force flag" ],
      workflow_changes :=
        [ "Replace \x27npm ci\x27 with \x27npm ci --legacy-peer-deps\x27",
          "Add npm config set legacy-peer-deps true" ],
      code_changes := [],
      confidence := 0.9 },
    { pattern := "ERROR:.*No module named \x27(\\w+)\x27",
      error_type := "python_missing_module",
      message := "Python module not found",
      fixes := [ "Add missing module to requirements.txt",
                 "Install module in workflow before tests",
                 "Check if module name is correct" ],
      workflow_changes :=
        [ "Add missing dependencies to requirements.txt installation",
          "Add explicit pip install step for missing modules" ],
      code_changes := [],
      confidence := 0.9 },
    { pattern := "SyntaxError:|IndentationError:",
      error_type := "python_syntax_error",
      message := "Python syntax or indentation error",
      fixes := [ "Fix syntax errors in Python code",
                 "Check indentation consistency",
                 "Run local linting before committing" ],
      workflow_changes := [],
      code_changes := [ "Fix syntax errors identified in logs",
                        "Run flake8 or black formatter" ],
      confidence := 0.95 },
    { pattern := "ImportError:.*cannot import name",
      error_type := "python_import_error",
      message := "Python import error",
      fixes := [ "Check import paths and module structure",
                 "Verify __init__.py files exist",
                 "Update imports to correct module paths" ],
      workflow_changes := [],
      code_changes := [],
      confidence := 0.8 },
    { pattern := "FAILED.*test_.*\\.py::\\w+",
      error_type := "test_failure",
      message := "Unit tests failing",
      fixes := [ "Fix failing test assertions",
                 "Update test data or mocks",
                 "Check if code changes broke expected behavior" ],
      workflow_changes := [],
      code_changes :=
        [ "Analyze failing test output and fix underlying issues",
          "Update test expectations if behavior change is intentional" ],
      confidence := 0.7 },
    { pattern := "error: (.+)\\n.*--> (.+):(\\d+):(\\d+)",
      error_type := "rust_compile_error",
      message := "Rust compilation error",
      fixes := [ "Fix Rust compilation errors in source code",
                 "Update Rust dependencies if needed",
                 "Check Rust toolchain version compatibility" ],
      workflow_changes := [],
      code_changes := [],
      confidence := 0.9 },
    { pattern := "go: (.+@.+): (.+)",
      error_type := "go_module_error",
      message := "Go module error",
      fixes := [ "Run \x27go mod tidy\x27 to clean up dependencies",
                 "Update go.mod with correct module versions",
                 "Check if module exists and is accessible" ],
      workflow_changes := [ "Add \x27go mod download\x27 step before build",
                            "Add \x27go mod tidy\x27 step to verify dependencies" ],
      code_changes := [],
      confidence := 0.8 },
    { pattern := "docker: Error response from daemon:",
      error_type := "docker_error",
      message := "Docker container error",
      fixes := [ "Check Docker image availability",
                 "Verify Dockerfile syntax",
                 "Check container resource requirements" ],
      workflow_changes := [],
      code_changes := [],
      confidence := 0.7 },
    { pattern := "ERROR: The request is invalid: (.+)",
      error_type := "github_api_error",
      message := "GitHub API or permissions error",
      fixes := [ "Check GITHUB_TOKEN permissions",
                 "Verify repository access settings",
                 "Update workflow permissions section" ],
      workflow_changes :=
        [ "Add appropriate permissions to workflow",
          "Check if GITHUB_TOKEN needs additional scopes" ],
      code_changes := [],
      confidence := 0.8 },
    { pattern := "Warning: Failed to restore cache",
      error_type := "cache_failure",
      message := "Cache restore failed",
      fixes := [ "Update cache key patterns",
                 "Clear old cache if corrupted",
                 "Add fallback cache keys" ],
      workflow_changes :=
        [ "Update cache action with better key patterns",
          "Add restore-keys for cache fallbacks" ],
      code_changes := [],
      confidence := 0.6 } ]

/-- The `failure_analysis` result dictionary of
`GitHubActionsFailureAnalyzer.analyze_failure_patterns`.  The `error_details`
entry stores the first match (`matches[0]`); the tuple shape it takes for
multi-group regexes is flattened to the match string delivered by the
oracle. -/
structure FailureAnalysis where
  error_type : String
  error_message : String
  suggested_fixes : List String
  confidence : ℚ
  workflow_changes : List String
  code_changes : List String
  error_details : Option String
deriving DecidableEq, Repr

/-- `GitHubActionsFailureAnalyzer.analyze_failure_patterns`: iterate the table
in order and, at the FIRST pattern whose `re.findall` result is non-empty,
copy that pattern's fields into the analysis and `break`.  Later matching
patterns are never consulted. -/
def fa_analyze_failure_patterns (refindall : String → String → List String)
    (logs : String) : FailureAnalysis :=
  match fa_failure_patterns.find? (fun pi => !(refindall pi.pattern logs).isEmpty) with
  | none =>
      { error_type := "unknown", error_message := "", suggested_fixes := [],
        confidence := 0, workflow_changes := [], code_changes := [],
        error_details := none }
  | some pi =>
      { error_type := pi.error_type,
        error_message := pi.message,
        suggested_fixes := pi.fixes,
        confidence := pi.confidence,
        workflow_changes := pi.workflow_changes,
        code_changes := pi.code_changes,
        error_details := (refindall pi.pattern logs).head? }

end FailureAnalyzer

/-- Outcome of a `subprocess.run([...gh...], capture_output=True, text=True,
check=True)` call.  `check=True` turns a non-zero exit status into a raised
`subprocess.CalledProcessError`; a missing or non-executable binary raises an
`OSError` (`FileNotFoundError` / `PermissionError`) from `subprocess.run`
itself.  No `timeout=` argument is passed anywhere in these call sites, so
`subprocess.TimeoutExpired` cannot arise. -/
inductive SubprocResult where
  | ok (stdout : String)
  | calledProcessError
  | fileNotFoundError
  | permissionError
deriving DecidableEq, Repr

/-- A Python exception escaping one of the embedded functions. -/
inductive PyExc where
  | fileNotFoundError
  | permissionError
deriving DecidableEq, Repr

/-- One element of the JSON array printed by `gh run list --json ...`.
`conclusion` is `none` for a JSON `null`; `gh` omits no requested keys.  The
`wgu-fighter.py` call site requests only the first five fields and ignores
the rest. -/
structure RunData where
  databaseId : Nat
  name : String
  status : String
  conclusion : Option String
  createdAt : String
  headBranch : String
  event : String
  url : Option String
deriving DecidableEq, Repr

namespace GHAJobs

/-- `WorkflowRun` dataclass of `gha_jobs_commands.py` (the derived
`age_hours` property is wall-clock based and elided). -/
structure WorkflowRun where
  id : String
  name : String
  status : String
  conclusion : String
  created_at : String
  head_branch : String
  event : String
  url : String
deriving DecidableEq, Repr

/-- `WorkflowRun.is_failed`. -/
def WorkflowRun.is_failed (r : WorkflowRun) : Bool :=
  r.conclusion == "failure" || r.conclusion == "cancelled"

/-- `GitHubActionsJobsManager.get_recent_runs`.  The `gh` invocation is the
`subproc` oracle and `json.loads` is the `parseJson` oracle; `_limit` and
`_status_filter` only shape the command line.  The `try` block catches exactly
`subprocess.CalledProcessError` and `json.JSONDecodeError` (returning `[]`);
an `OSError` from a missing/non-executable `gh` binary is not caught and
propagates. -/
def get_recent_runs (_limit : Nat) (_status_filter : Option String)
    (subproc : SubprocResult) (parseJson : String → Except Unit (List RunData)) :
    Except PyExc (List WorkflowRun) :=
  match subproc with
  | .ok stdout =>
      match parseJson stdout with
      | .ok runs_data =>
          .ok (runs_data.map (fun run_data =>
            { id := toString run_data.databaseId,
              name := run_data.name,
              status := run_data.status,
              conclusion := run_data.conclusion.getD "",
              created_at := run_data.createdAt,
              head_branch := run_data.headBranch,
              event := run_data.event,
              url := run_data.url.getD "" }))
      | .error _ => .ok []
  | .calledProcessError => .ok []
  | .fileNotFoundError => .error .fileNotFoundError
  | .permissionError => .error .permissionError

/-- `GitHubActionsJobsManager.get_run_logs`: returns the captured stdout; a
`CalledProcessError` is caught and yields `""`; an `OSError` propagates. -/
def get_run_logs (_run_id : String) (subproc : SubprocResult) : Except PyExc String :=
  match subproc with
  | .ok stdout => .ok stdout
  | .calledProcessError => .ok ""
  | .fileNotFoundError => .error .fileNotFoundError
  | .permissionError => .error .permissionError

end GHAJobs

namespace WGU

/-- `WorkflowStatus` dataclass of `wgu-fighter.py`.  A JSON `null` conclusion
copied into `status` is embedded as `""`. -/
structure WorkflowStatus where
  name : String
  status : String
  conclusion : Option String
  run_id : String
  created_at : String
deriving DecidableEq, Repr

/-- `BattleStatus` enum of `wgu-fighter.py`. -/
inductive BattleStatus where
  | fighting
  | victory
  | strategic_retreat
deriving DecidableEq, Repr

/-- `BattleRound` dataclass of `wgu-fighter.py`. -/
structure BattleRound where
  round_number : Nat
  fixes_applied : List String
  failures_before : List String
  failures_after : List String
  success_rate_before : ℚ
  success_rate_after : ℚ
  duration_minutes : ℚ
deriving DecidableEq, Repr

/-- The grouping loop of `WGUFighter.get_recent_workflow_status`: walk the
runs in order keeping only the first (most recent) run of each workflow name;
for completed runs the status becomes the conclusion. -/
def group_latest : List RunData → List String → List WorkflowStatus
  | [], _ => []
  | run :: rest, seen =>
      if seen.contains run.name then group_latest rest seen
      else
        { name := run.name,
          status := if run.status == "completed" then run.conclusion.getD ""
                    else run.status,
          conclusion := run.conclusion,
          run_id := toString run.databaseId,
          created_at := run.createdAt } :: group_latest rest (run.name :: seen)

/-- `WGUFighter.get_recent_workflow_status`.  The `try` block catches exactly
`subprocess.CalledProcessError` and `json.JSONDecodeError`, printing a warning
and returning `[]`; an `OSError` from a missing/non-executable `gh` binary is
not caught and propagates. -/
def get_recent_workflow_status (subproc : SubprocResult)
    (parseJson : String → Except Unit (List RunData)) :
    Except PyExc (List WorkflowStatus) :=
  match subproc with
  | .ok stdout =>
      match parseJson stdout with
      | .ok runs_data => .ok (group_latest runs_data [])
      | .error _ => .ok []
  | .calledProcessError => .ok []
  | .fileNotFoundError => .error .fileNotFoundError
  | .permissionError => .error .permissionError

/-- The dictionary returned by `WGUFighter.assess_battlefield`. -/
structure Assessment where
  workflows : List WorkflowStatus
  failures : List WorkflowStatus
  success_rate : ℚ
  total : Nat
deriving DecidableEq, Repr

/-- `WGUFighter.assess_battlefield`, applied to the workflow list returned by
`get_recent_workflow_status`: `total = len(workflows) if workflows else 1`
(the empty list is coerced to a total of 1), and the success rate is
`((total - len(failures)) / total) * 100`. -/
def assess_battlefield (workflows : List WorkflowStatus) : Assessment :=
  let failures := workflows.filter (fun w => w.status == "failure")
  let total := if workflows.isEmpty then 1 else workflows.length
  { workflows := workflows,
    failures := failures,
    success_rate := (((total : ℚ) - failures.length) / total) * 100,
    total := total }

/-- `WGUFighter.detect_battle_loops`: false with fewer than 3 rounds of
history; otherwise true exactly when the `failures_after` lists of the 3 most
recent rounds are all equal as sets
(`len(set(frozenset(failures) for failures in recent_failures)) == 1`). -/
def detect_battle_loops (battle_history : List BattleRound) : Bool :=
  if battle_history.length < 3 then false
  else
    let recent_rounds := battle_history.drop (battle_history.length - 3)
    let recent_failures := recent_rounds.map (fun r => r.failures_after.toFinset)
    recent_failures.dedup.length == 1

/-- The fixed fix descriptions appended by
`WGUFighter.try_alternative_strategies` when a battle loop is detected. -/
def alternative_fixes : List String :=
  [ "Tried different workflow runner versions",
    "Applied community-suggested workarounds",
    "Simplified workflow configurations to isolate issues" ]

/-- Python's `"{:.1f}"` float formatting, modelled on exact rationals by
rounding to one decimal place. -/
def fmt1 (q : ℚ) : String :=
  let n : ℤ := (q * 10 + 1 / 2).floor
  toString (n / 10) ++ "." ++ toString (n % 10).natAbs

/-- The `for i, fix in enumerate(self.total_fixes_applied, 1)` loop of
`WGUFighter.write_battle_report`: number the fixes starting at `n`. -/
def numberFrom (n : Nat) : List String → List String
  | [] => []
  | fix :: rest => (toString n ++ ". " ++ fix ++ "\n") :: numberFrom (n + 1) rest

/-- `WGUFighter.write_battle_report`: the sequence of strings written to
`WGU-BATTLE-REPORT.md`, in order.  The wall-clock header timestamp and the
total duration are the opaque parameters `now` and `duration`. -/
def write_battle_report (now duration : String) (battle_history : List BattleRound)
    (total_fixes_applied : List String) : List String :=
  [ "# WGU Battle Report - " ++ now ++ "\n\n",
    "## 🥊 Battle Summary\n",
    "- **Duration**: " ++ duration ++ " minutes\n",
    "- **Rounds Fought**: " ++ toString battle_history.length ++ "\n",
    "- **Fixes Applied**: " ++ toString total_fixes_applied.length ++ "\n" ]
  ++ (match battle_history.head?, battle_history.getLast? with
      | some firstRound, some lastRound =>
          [ "- **Initial Success Rate**: " ++ fmt1 firstRound.success_rate_before ++ "%\n",
            "- **Final Success Rate**: " ++ fmt1 lastRound.success_rate_after ++ "%\n" ]
      | _, _ => [])
  ++ [ "\n## 🔧 Fixes Attempted\n" ]
  ++ numberFrom 1 total_fixes_applied
  ++ [ "\n## 😤 Stubborn Issues That Remain\n" ]
  ++ (match battle_history.getLast? with
      | some lastRound =>
          lastRound.failures_after.map (fun failure =>
            "- **" ++ failure ++ "**: Still failing after " ++
              toString battle_history.length ++ " rounds\n")
      | none => [])
  ++ [ "\n## 💡 Recommended Future Strategies\n",
       "1. Try different runner environments (ubuntu-20.04 vs ubuntu-latest)\n",
       "2. Split complex workflows into smaller, focused jobs\n",
       "3. Research community solutions for similar persistent issues\n",
       "4. Consider alternative CI/CD approaches for problematic components\n",
       "5. Investigate if issues are environment-specific vs code-specific\n",
       "\n## 💪 \"I\x27ll be back for the next round!\"\n",
       "\nThis battle report was generated by the WGU (Won\x27t Give Up) Fighter.\n",
       "Review the attempted fixes and try the recommended strategies for round " ++
         toString (battle_history.length + 1) ++ ".\n" ]

/-- The external world of one `WGUFighter` run.  `statuses k` is the workflow
list produced by the k-th successful `get_recent_workflow_status` fetch
feeding an `assess_battlefield` call (the initial assessment is fetch 0; the
pre- and post-assessments of the rounds follow in order).  `fixes r` is the
fix-description list returned by `apply_fighter_fixes` in round `r` (its value
depends on the local filesystem, not on the failing-workflow argument).
`wait_for_battle_results` polls the platform but its results influence only
real-time waiting, so it contributes no data here. -/
structure Env where
  statuses : Nat → List WorkflowStatus
  fixes : Nat → List String
  now : String
  duration : String

/-- The aggregate outcome of `WGUFighter.fight_until_victory`: the returned
`BattleStatus`, the final `battle_history` and `total_fixes_applied`
attributes, and the battle report written by `strategic_retreat` (if any). -/
structure FightResult where
  status : BattleStatus
  history : List BattleRound
  total_fixes : List String
  report : Option (List String)
deriving DecidableEq, Repr

/-- `WGUFighter.execute_battle_round`: pre-assess (fetch `callIdx`); if no
failures, return an immediate 100%-after round consuming one fetch; otherwise
apply fixes, wait, post-assess (fetch `callIdx + 1`).  Returns the round and
the index of the next unused fetch.  `duration_minutes` is wall-clock time,
embedded as 0. -/
def execute_battle_round (env : Env) (callIdx : Nat) (round_num : Nat) :
    BattleRound × Nat :=
  let pre_state := assess_battlefield (env.statuses callIdx)
  let failures_before := pre_state.failures.map (fun w => w.name)
  if failures_before.isEmpty then
    ({ round_number := round_num,
       fixes_applied := [],
       failures_before := [],
       failures_after := [],
       success_rate_before := pre_state.success_rate,
       success_rate_after := 100,
       duration_minutes := 0 }, callIdx + 1)
  else
    let fixes_applied := env.fixes round_num
    let post_state := assess_battlefield (env.statuses (callIdx + 1))
    ({ round_number := round_num,
       fixes_applied := fixes_applied,
       failures_before := failures_before,
       failures_after := post_state.failures.map (fun w => w.name),
       success_rate_before := pre_state.success_rate,
       success_rate_after := post_state.success_rate,
       duration_minutes := 0 }, callIdx + 2)

/-- The `for round_num in range(1, max_rounds + 1)` loop of
`WGUFighter.fight_until_victory`, with `fuel` rounds left to fight: each round
is appended to the history and its fixes to `total_fixes_applied`
(`execute_battle_round` extends the attribute before returning); a post-round
success rate ≥ 100 returns `VICTORY` at once; a detected battle loop appends
the alternative-strategy fixes and continues; an exhausted budget falls
through to `strategic_retreat`, which writes the battle report and returns
`STRATEGIC_RETREAT`. -/
def fight_loop (env : Env) :
    Nat → Nat → Nat → List BattleRound → List String → FightResult
  | 0, _, _, history, total_fixes =>
      { status := BattleStatus.strategic_retreat,
        history := history,
        total_fixes := total_fixes,
        report := some (write_battle_report env.now env.duration history total_fixes) }
  | fuel + 1, round_num, callIdx, history, total_fixes =>
      let stepped := execute_battle_round env callIdx round_num
      let battle_result := stepped.1
      let history' := history ++ [battle_result]
      let total_fixes' := total_fixes ++ battle_result.fixes_applied
      if 100 ≤ battle_result.success_rate_after then
        { status := BattleStatus.victory,
          history := history',
          total_fixes := total_fixes',
          report := none }
      else
        let total_fixes'' :=
          if detect_battle_loops history' then total_fixes' ++ alternative_fixes
          else total_fixes'
        fight_loop env fuel (round_num + 1) stepped.2 history' total_fixes''

/-- `WGUFighter.fight_until_victory`: assess the battlefield once; with no
initial failures return `VICTORY` immediately (empty history, no report);
otherwise fight up to `max_rounds` rounds. -/
def fight_until_victory (env : Env) (max_rounds : Nat) : FightResult :=
  let initial_status := assess_battlefield (env.statuses 0)
  if initial_status.failures.isEmpty then
    { status := BattleStatus.victory, history := [], total_fixes := [],
      report := none }
  else
    fight_loop env max_rounds 1 1 [] []

/-- How control leaves `fighter.fight_until_victory()` inside `main()`'s
`try` block: a normal `BattleStatus` return, a `KeyboardInterrupt`, or any
other unhandled exception raised inside a battle round. -/
inductive FightOutcome where
  | normal (s : BattleStatus)
  | keyboardInterrupt
  | unexpectedError
deriving DecidableEq, Repr

/-- The exception dispatch of `main()` in `wgu-fighter.py`, mapped to the
process exit code and whether a battle report is persisted before the process
exits.  On a normal `STRATEGIC_RETREAT` return the report was written inside
`strategic_retreat`; the `except KeyboardInterrupt` handler calls
`fighter.write_battle_report()`; the `except Exception` handler only prints
two messages and calls `sys.exit(1)` — it writes no report. -/
def main_dispatch : FightOutcome → Nat × Bool
  | .normal .victory => (0, false)
  | .normal .strategic_retreat => (1, true)
  | .normal .fighting => (2, false)
  | .keyboardInterrupt => (130, true)
  | .unexpectedError => (1, false)

end WGU

/-- Number of (possibly overlapping) occurrences of `needle` at suffix
positions of `haystack`. -/
def countOccs (needle : List Char) : List Char → Nat
  | [] => 0
  | c :: t => (if needle.isPrefixOf (c :: t) then 1 else 0) + countOccs needle t

/-- A concrete instance of the `refindall` regex-engine oracle: literal
(metacharacter-free) substring search, one reported span per occurrence.  On
the metacharacter-free signatures used in the concrete witnesses below this
agrees with Python's `re.finditer` / `re.findall`. -/
def literalFind (pattern text : String) : List String :=
  List.replicate (countOccs pattern.toList text.toList) pattern

/-- A log exhibiting two independent signature matches: the
`npm_package_not_found` signature and the `cache_restore_failed` signature of
the jobs-manager table. -/
def twoSignatureLog : String :=
  "npm ERR! code ENOENT\nFailed to restore cache entry"

/-- A log matching two signatures of the standalone failure analyzer's table:
`docker_error` (table position 10) and `cache_failure` (table position 12). -/
def faTwoSignatureLog : String :=
  "docker: Error response from daemon:\nWarning: Failed to restore cache"

/-- A representative all-green environment: every platform fetch reports one
successful workflow. -/
def envAllGreen : WGU.Env :=
  { statuses := fun _ =>
      [ { name := "ci", status := "success", conclusion := some "success",
          run_id := "1", created_at := "t" } ],
    fixes := fun _ => [],
    now := "",
    duration := "" }

/-- A representative stuck environment: every platform fetch reports the same
single failing workflow, and every round applies one fix. -/
def envFailing : WGU.Env :=
  { statuses := fun _ =>
      [ { name := "ci", status := "failure", conclusion := some "failure",
          run_id := "1", created_at := "t" } ],
    fixes := fun _ => ["Fixed X"],
    now := "2025-01-01 00:00",
    duration := "0.0" }

/-- The first signature of the jobs-manager table (`npm_package_not_found`). -/
def npmSignature : GHAJobs.PatternDef :=
  GHAJobs.failure_patterns.get ⟨0, by decide⟩

/-- The last signature of the jobs-manager table (`cache_restore_failed`). -/
def cacheSignature : GHAJobs.PatternDef :=
  GHAJobs.failure_patterns.get ⟨4, by decide⟩

/-- The `MatchedPattern` produced by the `npm_package_not_found` signature on a
log containing its literal error text. -/
def npmMatched : GHAJobs.FailurePattern :=
  { pattern_name := "npm_package_not_found",
    error_signature := "npm ERR! code ENOENT",
    confidence := 0.9,
    description := "Missing package.json or wrong working directory",
    suggested_fix := "Add working-directory or check package.json location" }

/-- A sample matched pattern with confidence 0.9. -/
def sampleTopPattern : GHAJobs.FailurePattern :=
  { pattern_name := "top", error_signature := "sig-top", confidence := 0.9,
    description := "top root cause", suggested_fix := "fix-top" }

/-- A sample matched pattern with confidence 0.7. -/
def sampleLowPattern : GHAJobs.FailurePattern :=
  { pattern_name := "low", error_signature := "sig-low", confidence := 0.7,
    description := "low root cause", suggested_fix := "fix-low" }

/-- A battle round that leaves the single workflow "ci" failing. -/
def loopRound : WGU.BattleRound :=
  { round_number := 1, fixes_applied := [], failures_before := ["ci"],
    failures_after := ["ci"], success_rate_before := 0, success_rate_after := 0,
    duration_minutes := 0 }

/-- A degraded environment: every platform fetch yields the empty workflow
list (as after a failed `gh` invocation). -/
def envEmpty : WGU.Env :=
  { statuses := fun _ => [], fixes := fun _ => [], now := "", duration := "" }

/-- A JSON parser oracle that always fails (malformed JSON). -/
def parseFailure : String → Except Unit (List RunData) := fun _ => Except.error ()

/-- A JSON parser oracle that always returns an empty run array. -/
def parseEmpty : String → Except Unit (List RunData) := fun _ => Except.ok []

/-- A list with two distinct members has at least two elements. -/
lemma two_mem_le_length {α : Type} {l : List α} {a b : α}
    (ha : a ∈ l) (hb : b ∈ l) (hab : a ≠ b) : 2 ≤ l.length := by
  match l with
  | [] => exact absurd ha (List.not_mem_nil a)
  | [x] =>
      rw [List.mem_singleton] at ha hb
      exact absurd (ha.trans hb.symm) hab
  | x :: y :: t => simp only [List.length_cons]; omega

/-- Sorting by confidence permutes the list, so membership is unchanged. -/
lemma mem_sortByConfidence (p : GHAJobs.FailurePattern)
    (l : List GHAJobs.FailurePattern) :
    p ∈ GHAJobs.sortByConfidenceDesc l ↔ p ∈ l :=
  (List.mergeSort_perm l _).mem_iff

/-- Sorting by confidence preserves length. -/
lemma length_sortByConfidence (l : List GHAJobs.FailurePattern) :
    (GHAJobs.sortByConfidenceDesc l).length = l.length := by
  unfold GHAJobs.sortByConfidenceDesc
  exact List.length_mergeSort l

/-- The head of the descending stable sort bounds every confidence of the
original list. -/
lemma sortByConfidence_head_max {l : List GHAJobs.FailurePattern}
    {a : GHAJobs.FailurePattern} {rest : List GHAJobs.FailurePattern}
    (h : GHAJobs.sortByConfidenceDesc l = a :: rest) :
    ∀ q ∈ l, q.confidence ≤ a.confidence := by
  intro q hq
  have hp : List.Pairwise
      (fun x y : GHAJobs.FailurePattern =>
        (decide (y.confidence ≤ x.confidence)) = true)
      (GHAJobs.sortByConfidenceDesc l) := by
    unfold GHAJobs.sortByConfidenceDesc
    apply List.sorted_mergeSort
    · intro x y z hxy hyz
      simp only [decide_eq_true_eq] at hxy hyz ⊢
      exact le_trans hyz hxy
    · intro x y
      simp only [Bool.or_eq_true, decide_eq_true_eq]
      exact le_total y.confidence x.confidence
  have hq' : q ∈ a :: rest := h ▸ (mem_sortByConfidence q l).mpr hq
  rw [h] at hp
  rcases List.mem_cons.mp hq' with heq | hmem
  · exact le_of_eq (congrArg GHAJobs.FailurePattern.confidence heq)
  · have := (List.pairwise_cons.mp hp).1 q hmem
    simpa using this

/-- A non-empty list deduplicates to a single element exactly when all its
elements are equal. -/
lemma dedup_length_eq_one_iff {α : Type} [DecidableEq α] {l : List α}
    (hne : l ≠ []) :
    l.dedup.length = 1 ↔ ∀ a ∈ l, ∀ b ∈ l, a = b := by
  constructor
  · intro h a ha b hb
    obtain ⟨x, hx⟩ := List.length_eq_one.mp h
    have ha' : a ∈ l.dedup := List.mem_dedup.mpr ha
    have hb' : b ∈ l.dedup := List.mem_dedup.mpr hb
    rw [hx, List.mem_singleton] at ha' hb'
    rw [ha', hb']
  · intro H
    obtain ⟨a, ha⟩ := List.exists_mem_of_ne_nil l hne
    have hmem : a ∈ l.dedup := List.mem_dedup.mpr ha
    have hnd := List.nodup_dedup l
    rcases hd : l.dedup with _ | ⟨x, _ | ⟨y, t⟩⟩
    · rw [hd] at hmem
      exact absurd hmem (List.not_mem_nil a)
    · rfl
    · exfalso
      rw [hd] at hnd
      have hxy : x ≠ y := by
        intro he
        exact (List.nodup_cons.mp hnd).1 (he ▸ List.mem_cons_self y t)
      have hx : x ∈ l := List.mem_dedup.mp (hd ▸ List.mem_cons_self x (y :: t))
      have hy : y ∈ l :=
        List.mem_dedup.mp (hd ▸ List.mem_cons_of_mem x (List.mem_cons_self y t))
      exact hxy (H x hx y hy)

/-- With at least one failing workflow in the fetched list, the assessed
success rate is strictly below 100. -/
lemma assess_rate_lt_100 {ws : List WGU.WorkflowStatus}
    (h : ws.filter (fun w => w.status == "failure") ≠ []) :
    (WGU.assess_battlefield ws).success_rate < 100 := by
  have hws : ws ≠ [] := by
    intro he
    rw [he] at h
    exact h rfl
  have hnemp : ¬(ws.isEmpty = true) := fun hh => hws (List.isEmpty_iff.mp hh)
  have hgoal : (WGU.assess_battlefield ws).success_rate =
      (((ws.length : ℚ) - (ws.filter (fun w => w.status == "failure")).length) /
        (ws.length : ℚ)) * 100 := by
    unfold WGU.assess_battlefield
    simp only [if_neg hnemp]
  rw [hgoal]
  have hf1 : 1 ≤ (ws.filter (fun w => w.status == "failure")).length := by
    have := List.length_pos.mpr h
    omega
  have hfle : (ws.filter (fun w => w.status == "failure")).length ≤ ws.length :=
    List.length_filter_le _ _
  have hl1 : 1 ≤ ws.length := le_trans hf1 hfle
  have hq : (0 : ℚ) < (ws.length : ℚ) := by exact_mod_cast hl1
  have hfq : (0 : ℚ) < ((ws.filter (fun w => w.status == "failure")).length : ℚ) := by
    exact_mod_cast hf1
  have key : ((ws.length : ℚ) - (ws.filter (fun w => w.status == "failure")).length) /
      (ws.length : ℚ) < 1 := by
    rw [div_lt_one hq]
    linarith
  calc (((ws.length : ℚ) - (ws.filter (fun w => w.status == "failure")).length) /
        (ws.length : ℚ)) * 100 < 1 * 100 := by
        exact mul_lt_mul_of_pos_right key (by norm_num)
    _ = 100 := by norm_num

/-- When every platform fetch reports some failing workflow, every executed
round ends with a success rate strictly below 100. -/
lemma round_rate_lt (env : WGU.Env)
    (H : ∀ k, (env.statuses k).filter (fun w => w.status == "failure") ≠ [])
    (callIdx round_num : Nat) :
    ((WGU.execute_battle_round env callIdx round_num).1).success_rate_after < 100 := by
  have hpre : ((WGU.assess_battlefield (env.statuses callIdx)).failures.map
      (fun w => w.name)) ≠ [] := by
    rw [Ne, List.map_eq_nil_iff]
    exact H callIdx
  have hneg : ¬(((WGU.assess_battlefield (env.statuses callIdx)).failures.map
      (fun w => w.name)).isEmpty = true) :=
    fun hh => hpre (List.isEmpty_iff.mp hh)
  have hstep : (WGU.execute_battle_round env callIdx round_num).1.success_rate_after =
      (WGU.assess_battlefield (env.statuses (callIdx + 1))).success_rate := by
    unfold WGU.execute_battle_round
    simp only [if_neg hneg]
  rw [hstep]
  exact assess_rate_lt_100 (H (callIdx + 1))

/-- Unfolding equation of `fight_loop` at a positive fuel value. -/
lemma fight_loop_succ (env : WGU.Env) (n round_num callIdx : Nat)
    (history : List WGU.BattleRound) (total_fixes : List String) :
    WGU.fight_loop env (n + 1) round_num callIdx history total_fixes =
      (if 100 ≤ ((WGU.execute_battle_round env callIdx round_num).1).success_rate_after
       then
        { status := WGU.BattleStatus.victory,
          history := history ++ [(WGU.execute_battle_round env callIdx round_num).1],
          total_fixes := total_fixes ++
            ((WGU.execute_battle_round env callIdx round_num).1).fixes_applied,
          report := none }
       else
        WGU.fight_loop env n (round_num + 1)
          ((WGU.execute_battle_round env callIdx round_num).2)
          (history ++ [(WGU.execute_battle_round env callIdx round_num).1])
          (if WGU.detect_battle_loops
              (history ++ [(WGU.execute_battle_round env callIdx round_num).1])
           then (total_fixes ++
              ((WGU.execute_battle_round env callIdx round_num).1).fixes_applied) ++
                WGU.alternative_fixes
           else total_fixes ++
              ((WGU.execute_battle_round env callIdx round_num).1).fixes_applied)) :=
  rfl

/-- When every platform fetch reports some failing workflow, the fighting loop
always falls through to the strategic retreat, and the returned report is the
battle report rendered from the final history and fix list. -/
lemma fight_loop_retreats (env : WGU.Env)
    (H : ∀ k, (env.statuses k).filter (fun w => w.status == "failure") ≠ [])
    (fuel round_num callIdx : Nat) (history : List WGU.BattleRound)
    (total_fixes : List String) :
    (WGU.fight_loop env fuel round_num callIdx history total_fixes).status =
      WGU.BattleStatus.strategic_retreat ∧
    (WGU.fight_loop env fuel round_num callIdx history total_fixes).report =
      some (WGU.write_battle_report env.now env.duration
        (WGU.fight_loop env fuel round_num callIdx history total_fixes).history
        (WGU.fight_loop env fuel round_num callIdx history total_fixes).total_fixes) := by
  induction fuel generalizing round_num callIdx history total_fixes with
  | zero => exact ⟨rfl, rfl⟩
  | succ n ih =>
      rw [fight_loop_succ]
      rw [if_neg (not_le.mpr (round_rate_lt env H callIdx round_num))]
      exact ih _ _ _ _

/-- If the initial assessment reports no failures, the whole fight returns
victory immediately with an empty history and no report. -/
lemma fight_no_initial_failures (env : WGU.Env) (max_rounds : Nat)
    (h : (WGU.assess_battlefield (env.statuses 0)).failures = []) :
    WGU.fight_until_victory env max_rounds =
      { status := WGU.BattleStatus.victory, history := [], total_fixes := [],
        report := none } := by
  unfold WGU.fight_until_victory
  rw [if_pos (List.isEmpty_iff.mpr h)]

/-- Position `i` (0-based) of the fix list is rendered as line `n + i` by the
report's numbering loop. -/
lemma numberFrom_mem (fixes : List String) :
    ∀ (n i : Nat) (fix : String), fixes.get? i = some fix →
      (toString (n + i) ++ ". " ++ fix ++ "\n") ∈ WGU.numberFrom n fixes := by
  induction fixes with
  | nil =>
      intro n i fix h
      simp at h
  | cons a t ih =>
      intro n i fix h
      cases i with
      | zero =>
          simp only [List.get?] at h
          injection h with h
          subst h
          simp [WGU.numberFrom]
      | succ j =>
          simp only [List.get?] at h
          have hmem := ih (n + 1) j fix h
          have harith : n + (j + 1) = (n + 1) + j := by omega
          rw [harith]
          exact List.mem_cons_of_mem _ hmem

/-- The "Rounds Fought" line of the battle report. -/
lemma rounds_line_mem (now dur : String) (h : List WGU.BattleRound)
    (f : List String) :
    ("- **Rounds Fought**: " ++ toString h.length ++ "\n") ∈
      WGU.write_battle_report now dur h f := by
  unfold WGU.write_battle_report
  simp only [List.append_assoc, List.mem_append, List.mem_cons]
  tauto

/-- Every applied fix appears in the battle report, numbered in application
order starting from 1. -/
lemma fix_line_mem (now dur : String) (h : List WGU.BattleRound)
    (f : List String) (i : Nat) (fix : String) (hget : f.get? i = some fix) :
    (toString (i + 1) ++ ". " ++ fix ++ "\n") ∈ WGU.write_battle_report now dur h f := by
  have hmem := numberFrom_mem f 1 i fix hget
  rw [Nat.add_comm] at hmem
  unfold WGU.write_battle_report
  simp only [List.append_assoc, List.mem_append]
  tauto

/-- C1: the overall-confidence aggregator returns exactly 0.3 on an empty
matched-pattern list; on a non-empty list whose confidences all lie in [0,1]
with at least one positive, it returns
min(Σ confidence_i² / Σ confidence_i, 0.95), a value in (0, 0.95]. -/
theorem C1_overall_confidence_bounds :
    GHAJobs.calculate_overall_confidence [] = 0.3 ∧
    ∀ patterns : List GHAJobs.FailurePattern,
      patterns ≠ [] →
      (∀ p ∈ patterns, 0 ≤ p.confidence ∧ p.confidence ≤ 1) →
      (∃ p ∈ patterns, 0 < p.confidence) →
      GHAJobs.calculate_overall_confidence patterns =
        min ((patterns.map (fun p => p.confidence * p.confidence)).sum /
          (patterns.map (fun p => p.confidence)).sum) 0.95 ∧
      0 < GHAJobs.calculate_overall_confidence patterns ∧
      GHAJobs.calculate_overall_confidence patterns ≤ 0.95 := by
  constructor
  · rfl
  · rintro patterns hne hbounds ⟨p₀, hp₀mem, hp₀pos⟩
    have hnemp : ¬(patterns.isEmpty = true) :=
      fun hh => hne (List.isEmpty_iff.mp hh)
    have hS : 0 < (patterns.map (fun p => p.confidence)).sum := by
      have hmem : p₀.confidence ∈ patterns.map (fun p => p.confidence) :=
        List.mem_map_of_mem _ hp₀mem
      have hnn : ∀ x ∈ patterns.map (fun p => p.confidence), 0 ≤ x := by
        intro x hx
        obtain ⟨q, hq, rfl⟩ := List.mem_map.mp hx
        exact (hbounds q hq).1
      have := List.single_le_sum hnn _ hmem
      linarith
    have hS2 : 0 < (patterns.map (fun p => p.confidence * p.confidence)).sum := by
      have hmem : p₀.confidence * p₀.confidence ∈
          patterns.map (fun p => p.confidence * p.confidence) :=
        List.mem_map_of_mem _ hp₀mem
      have hnn : ∀ x ∈ patterns.map (fun p => p.confidence * p.confidence), 0 ≤ x := by
        intro x hx
        obtain ⟨q, hq, rfl⟩ := List.mem_map.mp hx
        exact mul_nonneg (hbounds q hq).1 (hbounds q hq).1
      have hle := List.single_le_sum hnn _ hmem
      have hpos : 0 < p₀.confidence * p₀.confidence := mul_pos hp₀pos hp₀pos
      linarith
    have hval : GHAJobs.calculate_overall_confidence patterns =
        min ((patterns.map (fun p => p.confidence * p.confidence)).sum /
          (patterns.map (fun p => p.confidence)).sum) 0.95 := by
      unfold GHAJobs.calculate_overall_confidence
      rw [if_neg hnemp]
      show (if (patterns.map (fun p => p.confidence)).sum = 0 then (0.3 : ℚ)
            else min ((patterns.map (fun p => p.confidence * p.confidence)).sum /
              (patterns.map (fun p => p.confidence)).sum) 0.95) = _
      rw [if_neg (ne_of_gt hS)]
    refine ⟨hval, ?_, ?_⟩
    · rw [hval]
      exact lt_min (div_pos hS2 hS) (by norm_num)
    · rw [hval]
      exact min_le_right _ _

/-- C1 witness: the aggregator evaluated on the singleton 0.9-confidence
pattern list lies in (0, 0.95]. -/
theorem C1_overall_confidence_bounds_witness :
    0 < GHAJobs.calculate_overall_confidence [sampleTopPattern] ∧
    GHAJobs.calculate_overall_confidence [sampleTopPattern] ≤ 0.95 := by
  have h := C1_overall_confidence_bounds.2 [sampleTopPattern]
    (by simp)
    (by
      intro p hp
      rw [List.mem_singleton] at hp
      subst hp
      constructor <;> norm_num [sampleTopPattern])
    ⟨sampleTopPattern, List.mem_singleton.mpr rfl, by norm_num [sampleTopPattern]⟩
  exact ⟨h.2.1, h.2.2⟩

/-- C3: the loop detector returns true exactly when the history has at least
3 rounds and the 3 most recent rounds have equal failures-after sets (set
equality: order and duplicates in the lists are irrelevant); in particular it
returns false on any history of fewer than 3 rounds. -/
theorem C3_loop_detection (history : List WGU.BattleRound) :
    WGU.detect_battle_loops history = true ↔
      (3 ≤ history.length ∧
       ∀ r₁ ∈ history.drop (history.length - 3),
         ∀ r₂ ∈ history.drop (history.length - 3),
           r₁.failures_after.toFinset = r₂.failures_after.toFinset) := by
  unfold WGU.detect_battle_loops
  by_cases hlt : history.length < 3
  · rw [if_pos hlt]
    constructor
    · intro h
      exact absurd h Bool.false_ne_true
    · rintro ⟨hge, -⟩
      omega
  · rw [if_neg hlt]
    have hge : 3 ≤ history.length := by omega
    have hdlen : (history.drop (history.length - 3)).length = 3 := by
      rw [List.length_drop]
      omega
    have hdne : history.drop (history.length - 3) ≠ [] := by
      intro he
      rw [he] at hdlen
      simp at hdlen
    have hmne : (history.drop (history.length - 3)).map
        (fun r => r.failures_after.toFinset) ≠ [] := by
      rw [Ne, List.map_eq_nil_iff]
      exact hdne
    rw [beq_iff_eq, dedup_length_eq_one_iff hmne]
    constructor
    · intro H
      refine ⟨hge, ?_⟩
      intro r₁ h₁ r₂ h₂
      exact H _ (List.mem_map_of_mem _ h₁) _ (List.mem_map_of_mem _ h₂)
    · rintro ⟨-, H⟩ a ha b hb
      obtain ⟨r₁, h₁, rfl⟩ := List.mem_map.mp ha
      obtain ⟨r₂, h₂, rfl⟩ := List.mem_map.mp hb
      exact H r₁ h₁ r₂ h₂

/-- C3 witness: three identical rounds with the same failing set are detected
as a loop. -/
theorem C3_loop_detection_witness :
    WGU.detect_battle_loops [loopRound, loopRound, loopRound] = true :=
  (C3_loop_detection [loopRound, loopRound, loopRound]).mpr
    ⟨by decide, by decide⟩

/-- C4: if the initial battlefield assessment reports zero failing workflows,
the orchestration loop returns the VICTORY terminal status with zero rounds
executed and an empty battle history. -/
theorem C4_victory_short_circuit (env : WGU.Env) (max_rounds : Nat)
    (h : (WGU.assess_battlefield (env.statuses 0)).failures = []) :
    WGU.fight_until_victory env max_rounds =
      { status := WGU.BattleStatus.victory, history := [], total_fixes := [],
        report := none } :=
  fight_no_initial_failures env max_rounds h

/-- C4 witness: with every workflow green on the first fetch, the fight
returns victory with an empty history. -/
theorem C4_victory_short_circuit_witness :
    WGU.fight_until_victory envAllGreen 10 =
      { status := WGU.BattleStatus.victory, history := [], total_fixes := [],
        report := none } :=
  C4_victory_short_circuit envAllGreen 10 (by decide)

/-- C6: the claim says any unhandled exception inside a battle round must
still produce a retreat-style report before propagating or exiting; the code's
generic exception handler exits with code 1 without writing any report (only
the KeyboardInterrupt handler persists one). -/
theorem C6_unexpected_exception_skips_report :
    WGU.main_dispatch WGU.FightOutcome.unexpectedError = (1, false) ∧
    WGU.main_dispatch WGU.FightOutcome.keyboardInterrupt = (130, true) :=
  ⟨rfl, rfl⟩

/-- C5: when every assessment keeps reporting a failing workflow, the round
budget is exhausted without reaching 100% success; the orchestration loop then
returns STRATEGIC_RETREAT and, before returning, writes the battle report
containing the number of rounds fought and every applied fix description,
numbered in application order. -/
theorem C5_retreat_report (env : WGU.Env) (max_rounds : Nat)
    (H : ∀ k, (env.statuses k).filter (fun w => w.status == "failure") ≠ []) :
    (WGU.fight_until_victory env max_rounds).status =
      WGU.BattleStatus.strategic_retreat ∧
    ∃ lines, (WGU.fight_until_victory env max_rounds).report = some lines ∧
      ("- **Rounds Fought**: " ++
        toString (WGU.fight_until_victory env max_rounds).history.length ++ "\n")
        ∈ lines ∧
      ∀ (i : Nat) (fix : String),
        (WGU.fight_until_victory env max_rounds).total_fixes.get? i = some fix →
        (toString (i + 1) ++ ". " ++ fix ++ "\n") ∈ lines := by
  have h0 : ¬(((WGU.assess_battlefield (env.statuses 0)).failures).isEmpty = true) := by
    intro hh
    exact H 0 (List.isEmpty_iff.mp hh)
  have heq : WGU.fight_until_victory env max_rounds =
      WGU.fight_loop env max_rounds 1 1 [] [] := by
    unfold WGU.fight_until_victory
    rw [if_neg h0]
  obtain ⟨hs, hr⟩ := fight_loop_retreats env H max_rounds 1 1 [] []
  rw [heq]
  refine ⟨hs, WGU.write_battle_report env.now env.duration _ _, hr, ?_, ?_⟩
  · exact rounds_line_mem _ _ _ _
  · intro i fix hget
    exact fix_line_mem _ _ _ _ i fix hget

/-- C5 witness: a one-round budget against a permanently failing workflow
retreats and reports the applied fix as its first numbered line. -/
theorem C5_retreat_report_witness :
    (WGU.fight_until_victory envFailing 1).status =
      WGU.BattleStatus.strategic_retreat ∧
    ∃ lines, (WGU.fight_until_victory envFailing 1).report = some lines ∧
      ("1. Fixed X\n") ∈ lines := by
  have H : ∀ k, (envFailing.statuses k).filter (fun w => w.status == "failure") ≠ [] := by
    intro k
    show List.filter (fun w : WGU.WorkflowStatus => w.status == "failure")
        ([ { name := "ci", status := "failure", conclusion := some "failure",
             run_id := "1", created_at := "t" } ] : List WGU.WorkflowStatus) ≠ []
    decide
  obtain ⟨hs, lines, hrep, hcount, hfix⟩ := C5_retreat_report envFailing 1 H
  have hstep1 : WGU.fight_until_victory envFailing 1 =
      WGU.fight_loop envFailing 1 1 1 [] [] := by
    unfold WGU.fight_until_victory
    rw [if_neg (by decide)]
  have hstep2 : WGU.fight_loop envFailing 1 1 1 [] [] =
      WGU.fight_loop envFailing 0 2 ((WGU.execute_battle_round envFailing 1 1).2)
        ([] ++ [(WGU.execute_battle_round envFailing 1 1).1])
        (if WGU.detect_battle_loops ([] ++ [(WGU.execute_battle_round envFailing 1 1).1])
         then ([] ++ ((WGU.execute_battle_round envFailing 1 1).1).fixes_applied) ++
            WGU.alternative_fixes
         else [] ++ ((WGU.execute_battle_round envFailing 1 1).1).fixes_applied) := by
    rw [fight_loop_succ]
    rw [if_neg (not_le.mpr (round_rate_lt envFailing H 1 1))]
  have htf : (WGU.fight_until_victory envFailing 1).total_fixes =
      [] ++ ((WGU.execute_battle_round envFailing 1 1).1).fixes_applied := by
    rw [hstep1, hstep2]
    show (if WGU.detect_battle_loops ([] ++ [(WGU.execute_battle_round envFailing 1 1).1])
          then ([] ++ ((WGU.execute_battle_round envFailing 1 1).1).fixes_applied) ++
            WGU.alternative_fixes
          else [] ++ ((WGU.execute_battle_round envFailing 1 1).1).fixes_applied) = _
    rw [if_neg (by decide)]
  have hget : (WGU.fight_until_victory envFailing 1).total_fixes.get? 0 =
      some "Fixed X" := by
    rw [htf]
    decide
  exact ⟨hs, lines, hrep, hfix 0 "Fixed X" hget⟩

/-- C9 counterexample: with the platform CLI unavailable (`gh` binary missing,
`subprocess.run` raising `FileNotFoundError`), both run-listing operations and
the log fetch raise instead of returning an empty result — the exception is
not caught by the `except subprocess.CalledProcessError` /
`except json.JSONDecodeError` clauses and surfaces to the caller. -/
theorem C9_cli_unavailable_raises :
    GHAJobs.get_recent_runs 10 none SubprocResult.fileNotFoundError parseEmpty =
      Except.error PyExc.fileNotFoundError ∧
    GHAJobs.get_run_logs "123" SubprocResult.fileNotFoundError =
      Except.error PyExc.fileNotFoundError ∧
    WGU.get_recent_workflow_status SubprocResult.fileNotFoundError parseEmpty =
      Except.error PyExc.fileNotFoundError :=
  ⟨rfl, rfl, rfl⟩

/-- C9 (amended): for the failure modes the code actually catches — a
non-zero CLI exit (`CalledProcessError`) and malformed JSON — the run-listing
operations return an empty list and the log fetch returns the empty string,
with no exception surfacing; OS-level failures (CLI unavailable, permission
denied) propagate, and no timeout is configured so no timeout exception can
arise. -/
theorem C9_transport_errors_recovered (limit : Nat) (status_filter : Option String)
    (run_id : String) (parseJson : String → Except Unit (List RunData)) :
    GHAJobs.get_recent_runs limit status_filter SubprocResult.calledProcessError
      parseJson = Except.ok [] ∧
    (∀ out, parseJson out = Except.error () →
      GHAJobs.get_recent_runs limit status_filter (SubprocResult.ok out) parseJson =
        Except.ok []) ∧
    GHAJobs.get_run_logs run_id SubprocResult.calledProcessError = Except.ok "" ∧
    WGU.get_recent_workflow_status SubprocResult.calledProcessError parseJson =
      Except.ok [] ∧
    (∀ out, parseJson out = Except.error () →
      WGU.get_recent_workflow_status (SubprocResult.ok out) parseJson =
        Except.ok []) := by
  refine ⟨rfl, ?_, rfl, rfl, ?_⟩
  · intro out h
    simp only [GHAJobs.get_recent_runs]
    rw [h]
  · intro out h
    simp only [WGU.get_recent_workflow_status]
    rw [h]

/-- C9 witness: a malformed-JSON parse on a successful CLI exit yields the
empty list in both managers. -/
theorem C9_transport_errors_recovered_witness :
    GHAJobs.get_recent_runs 10 none (SubprocResult.ok "not json") parseFailure =
      Except.ok [] ∧
    WGU.get_recent_workflow_status (SubprocResult.ok "not json") parseFailure =
      Except.ok [] := by
  have h := C9_transport_errors_recovered 10 none "123" parseFailure
  exact ⟨h.2.1 "not json" rfl, h.2.2.2.2 "not json" rfl⟩

/-- C10: an empty workflow list — including every degraded case where the
platform CLI call failed and was recovered as `[]` — is assessed as zero
failures with the total coerced from 0 to 1 and a success rate of exactly
100%, so an orchestration loop started in that state returns VICTORY at once
with an empty battle history despite having no platform data. -/
theorem C10_degraded_empty_is_victory :
    (∀ parseJson, WGU.get_recent_workflow_status SubprocResult.calledProcessError
        parseJson = Except.ok []) ∧
    (∀ parseJson out, parseJson out = Except.error () →
      WGU.get_recent_workflow_status (SubprocResult.ok out) parseJson =
        Except.ok []) ∧
    ((WGU.assess_battlefield []).failures = [] ∧
     (WGU.assess_battlefield []).total = 1 ∧
     (WGU.assess_battlefield []).success_rate = 100) ∧
    (∀ env max_rounds, env.statuses 0 = [] →
      WGU.fight_until_victory env max_rounds =
        { status := WGU.BattleStatus.victory, history := [], total_fixes := [],
          report := none }) := by
  refine ⟨fun _ => rfl, ?_, ⟨rfl, rfl, ?_⟩, ?_⟩
  · intro parseJson out h
    simp only [WGU.get_recent_workflow_status]
    rw [h]
  · norm_num [WGU.assess_battlefield]
  · intro env max_rounds h
    apply fight_no_initial_failures
    rw [h]
    rfl

/-- C10 witness: a failed CLI call recovered as the empty list, and a fight
started on an all-empty environment, returning victory with no rounds. -/
theorem C10_degraded_empty_is_victory_witness :
    WGU.get_recent_workflow_status (SubprocResult.ok "not json") parseFailure =
      Except.ok [] ∧
    WGU.fight_until_victory envEmpty 10 =
      { status := WGU.BattleStatus.victory, history := [], total_fixes := [],
        report := none } := by
  have h := C10_degraded_empty_is_victory
  exact ⟨h.2.1 parseFailure "not json" rfl, h.2.2.2 envEmpty 10 rfl⟩

/-- C7 counterexample: on an empty filtered pattern list the code returns
"Unable to identify specific root cause from available patterns" (capital U),
not the lowercase literal stated by the claim. -/
theorem C7_counterexample :
    GHAJobs.determine_root_cause [] "" ≠
      "unable to identify specific root cause from available patterns" := by
  decide

/-- C7 (amended, capitalization corrected): the root cause is the literal
"Unable to identify specific root cause from available patterns" on an empty
filtered list; the single pattern's description (no suffix) on a singleton
list; and, on a longer list, the description of a highest-confidence pattern
suffixed with "(plus N related issues)" where N = count - 1. -/
theorem C7_root_cause_text :
    (∀ logs, GHAJobs.determine_root_cause [] logs =
        "Unable to identify specific root cause from available patterns") ∧
    (∀ (p : GHAJobs.FailurePattern) (logs : String),
        GHAJobs.determine_root_cause [p] logs = p.description) ∧
    (∀ (patterns : List GHAJobs.FailurePattern) (logs : String),
        2 ≤ patterns.length →
        ∃ p ∈ patterns, (∀ q ∈ patterns, q.confidence ≤ p.confidence) ∧
          GHAJobs.determine_root_cause patterns logs =
            p.description ++ " (plus " ++ toString (patterns.length - 1) ++
              " related issues)") := by
  refine ⟨fun logs => rfl, ?_, ?_⟩
  · intro p logs
    unfold GHAJobs.determine_root_cause
    rw [if_neg (by simp)]
    rw [show GHAJobs.sortByConfidenceDesc [p] = [p] from List.mergeSort_singleton p]
  · intro patterns logs hlen
    have hne : patterns ≠ [] := by
      intro he
      rw [he] at hlen
      simp at hlen
    rcases hs : GHAJobs.sortByConfidenceDesc patterns with _ | ⟨a, _ | ⟨b, t⟩⟩
    · exfalso
      have hl := length_sortByConfidence patterns
      rw [hs] at hl
      simp at hl
      omega
    · exfalso
      have hl := length_sortByConfidence patterns
      rw [hs] at hl
      simp at hl
      omega
    · refine ⟨a, ?_, fun q hq => sortByConfidence_head_max hs q hq, ?_⟩
      · apply (mem_sortByConfidence a patterns).mp
        rw [hs]
        exact List.mem_cons_self a (b :: t)
      · unfold GHAJobs.determine_root_cause
        rw [if_neg (by simpa [List.isEmpty_iff] using hne)]
        rw [hs]

/-- C7 witness: a two-pattern list yields the top description with the
"(plus 1 related issues)" suffix. -/
theorem C7_root_cause_text_witness :
    2 ≤ ([sampleLowPattern, sampleTopPattern] : List GHAJobs.FailurePattern).length ∧
    ∃ p ∈ ([sampleLowPattern, sampleTopPattern] : List GHAJobs.FailurePattern),
      (∀ q ∈ ([sampleLowPattern, sampleTopPattern] : List GHAJobs.FailurePattern),
        q.confidence ≤ p.confidence) ∧
      GHAJobs.determine_root_cause [sampleLowPattern, sampleTopPattern] "" =
        p.description ++ " (plus " ++
          toString (([sampleLowPattern, sampleTopPattern] :
            List GHAJobs.FailurePattern).length - 1) ++ " related issues)" :=
  ⟨by decide, C7_root_cause_text.2.2 [sampleLowPattern, sampleTopPattern] "" (by decide)⟩

/-- C2 counterexample: on a log whose text matches two signatures of the
standalone failure analyzer's table with distinct names (`docker_error` and
`cache_failure`), `GitHubActionsFailureAnalyzer.analyze_failure_patterns`
surfaces only the first matching signature: its output names `docker_error`
alone and is identical to the output on a log matching only the docker
signature, so this matcher does not test every signature without
short-circuiting and cannot yield two matched patterns. -/
theorem C2_counterexample :
    ((FailureAnalyzer.fa_failure_patterns.filter
        (fun q => !(literalFind q.pattern faTwoSignatureLog).isEmpty)).map
          (fun q => q.error_type)) = ["docker_error", "cache_failure"] ∧
    (FailureAnalyzer.fa_analyze_failure_patterns literalFind
        faTwoSignatureLog).error_type = "docker_error" ∧
    FailureAnalyzer.fa_analyze_failure_patterns literalFind faTwoSignatureLog =
      FailureAnalyzer.fa_analyze_failure_patterns literalFind
        "docker: Error response from daemon:" :=
  ⟨by decide, by decide, rfl⟩

/-- C2 (amended): the jobs-manager matcher
`GitHubActionsJobsManager.analyze_failure_patterns` tests every signature of
its table against the whole log with no short-circuit: whenever two signatures
with distinct names both match, the output has at least two matched patterns
with those distinct names, each carrying its own signature's confidence.  The
standalone failure analyzer's matcher, by contrast, stops at the first
matching signature in table order (see the counterexample). -/
theorem C2_matcher_no_short_circuit (refindall : String → String → List String)
    (log : String) (pd1 pd2 : GHAJobs.PatternDef)
    (h1 : pd1 ∈ GHAJobs.failure_patterns) (h2 : pd2 ∈ GHAJobs.failure_patterns)
    (hname : pd1.name ≠ pd2.name)
    (hm1 : refindall pd1.regex log ≠ []) (hm2 : refindall pd2.regex log ≠ []) :
    2 ≤ (GHAJobs.analyze_failure_patterns refindall log).length ∧
    ∃ fp1 ∈ GHAJobs.analyze_failure_patterns refindall log,
      ∃ fp2 ∈ GHAJobs.analyze_failure_patterns refindall log,
        fp1.pattern_name = pd1.name ∧ fp1.confidence = pd1.confidence ∧
        fp2.pattern_name = pd2.name ∧ fp2.confidence = pd2.confidence ∧
        fp1.pattern_name ≠ fp2.pattern_name := by
  obtain ⟨m1, hm1'⟩ := List.exists_mem_of_ne_nil _ hm1
  obtain ⟨m2, hm2'⟩ := List.exists_mem_of_ne_nil _ hm2
  have hfp1 : (⟨pd1.name, m1, pd1.confidence, pd1.description, pd1.fix⟩ :
      GHAJobs.FailurePattern) ∈ GHAJobs.analyze_failure_patterns refindall log :=
    List.mem_flatMap.mpr ⟨pd1, h1, List.mem_map_of_mem _ hm1'⟩
  have hfp2 : (⟨pd2.name, m2, pd2.confidence, pd2.description, pd2.fix⟩ :
      GHAJobs.FailurePattern) ∈ GHAJobs.analyze_failure_patterns refindall log :=
    List.mem_flatMap.mpr ⟨pd2, h2, List.mem_map_of_mem _ hm2'⟩
  refine ⟨two_mem_le_length hfp1 hfp2 ?_, _, hfp1, _, hfp2, rfl, rfl, rfl, rfl, hname⟩
  intro he
  exact hname (congrArg GHAJobs.FailurePattern.pattern_name he)

/-- C2 witness: the two-signature log yields at least two matched patterns
from the jobs-manager matcher. -/
theorem C2_matcher_no_short_circuit_witness :
    2 ≤ (GHAJobs.analyze_failure_patterns literalFind twoSignatureLog).length :=
  (C2_matcher_no_short_circuit literalFind twoSignatureLog npmSignature
    cacheSignature (List.get_mem _ _ _) (List.get_mem _ _ _)
    (by decide) (by decide) (by decide)).1

/-- C8: threshold filtering is monotone: for a fixed log and thresholds
T1 < T2, every pattern surfaced by the investigation at threshold T2 is also
surfaced at threshold T1. -/
theorem C8_threshold_monotone (refindall : String → String → List String)
    (logs : String) (T1 T2 : ℚ) (hT : T1 < T2) :
    ∀ p ∈ (GHAJobs.investigate_run refindall logs T2).patterns,
      p ∈ (GHAJobs.investigate_run refindall logs T1).patterns := by
  intro p hp
  have hp' : p ∈ (GHAJobs.analyze_failure_patterns refindall logs).filter
      (fun q => T2 ≤ q.confidence) := (mem_sortByConfidence p _).mp hp
  rw [List.mem_filter] at hp'
  obtain ⟨hpa, hpc⟩ := hp'
  have hpc' : T2 ≤ p.confidence := of_decide_eq_true hpc
  apply (mem_sortByConfidence p _).mpr
  rw [List.mem_filter]
  exact ⟨hpa, decide_eq_true (le_trans (le_of_lt hT) hpc')⟩

/-- C8 witness: the npm-signature match surfaced at threshold 0.7 is also
surfaced at threshold 0.5. -/
theorem C8_threshold_monotone_witness :
    npmMatched ∈ (GHAJobs.investigate_run literalFind twoSignatureLog 0.7).patterns ∧
    npmMatched ∈ (GHAJobs.investigate_run literalFind twoSignatureLog 0.5).patterns := by
  have hmem : npmMatched ∈ GHAJobs.analyze_failure_patterns literalFind twoSignatureLog := by
    apply List.mem_flatMap.mpr
    refine ⟨npmSignature, List.get_mem _ _ _, ?_⟩
    apply List.mem_map.mpr
    exact ⟨"npm ERR! code ENOENT", by decide, rfl⟩
  have h2 : npmMatched ∈ (GHAJobs.investigate_run literalFind twoSignatureLog 0.7).patterns := by
    apply (mem_sortByConfidence npmMatched _).mpr
    rw [List.mem_filter]
    refine ⟨hmem, decide_eq_true ?_⟩
    norm_num [npmMatched]
  exact ⟨h2,
    C8_threshold_monotone literalFind twoSignatureLog 0.5 0.7 (by norm_num)
      npmMatched h2⟩
